import Mathlib

/-!
Verification of the attribute caching and function-scoped command-routing
layer of the Keithley 2000 IVI DMM driver (`ivi/keithley/keithley2000.py`).

Each driver method is shallowly embedded as a Lean function from a transport
oracle and a driver state to an `Except` result.  Python exceptions leave all
mutations performed before the raise in place, so the error side of the
result carries the state at the point of failure; both sides carry the list
of transport calls (events) performed by the operation.

The per-attribute validity-flag machinery (`_get_cache_valid` /
`_set_cache_valid`) and the transport (`_ask` / `_write` /
`_driver_operation_simulate`) live in the `ivi` base library, outside the
excerpt; they are modelled from the spec (sections 4.2 and 6): one boolean
validity flag per attribute, a `simulate` flag that short-circuits all
transport calls, and `ask`/`write` primitives that may fail.
-/

namespace Keithley2000

/-- Transport-level failure (timeout, disconnect, ...); its payload is
opaque to the driver, a string suffices. -/
abbrev TErr := String

/-- Modelled from the spec: the transport contract of section 6 — `ask`
returns the raw textual reply, `write` sends a command with no reply. -/
structure Transport where
  ask : String → Except TErr String
  write : String → Except TErr Unit

/-- A transport call, recorded in the event trace of each operation. -/
inductive Ev where
  | askEv (cmd : String)
  | writeEv (cmd : String)
  | clearEv
  deriving Repr, DecidableEq

/-- The errors an operation can raise: `valueNotSupported` is
`ivi.ValueNotSupportedException`; `transport` propagates a transport
failure; `indexError` is the Python index error from `[...][0]` on an empty
reverse-lookup result; `parseError` is the Python value error from
`int(...)` / `float(...)` on an unparseable reply. -/
inductive Err where
  | valueNotSupported
  | transport (e : TErr)
  | indexError
  | parseError
  deriving Repr, DecidableEq

/-- Modelled from the spec: driver state — the in-memory value of each
attribute together with one validity flag per attribute (spec section 4.2),
plus the constant `simulate` mode flag.  `range` and `auto_range` values
live in the base class outside the excerpt; only their validity flags are
touched by the code of this file, so only the flags appear. -/
structure St where
  simulate : Bool
  measurement_function : String
  digits : Int
  nplc : ℚ
  filter_enabled : String
  filter_type : String
  filter_count : Int
  measurement_continuous : String
  v_function : Bool
  v_range : Bool
  v_auto_range : Bool
  v_digits : Bool
  v_nplc : Bool
  v_filter_enabled : Bool
  v_filter_type : Bool
  v_filter_count : Bool
  v_continuous : Bool
  deriving Repr, DecidableEq

/-- Result of an operation: on success a value, the new state and the
transport calls made; on failure the raised error, the state at the point
of the raise (Python mutations before the raise persist) and the transport
calls made up to and including the failing one. -/
abbrev Res (α : Type) := Except (Err × St × List Ev) (α × St × List Ev)

instance {ε α : Type} [DecidableEq ε] [DecidableEq α] : DecidableEq (Except ε α) :=
  fun x y =>
    match x, y with
    | .ok a, .ok b =>
      if h : a = b then isTrue (h ▸ rfl) else isFalse fun hh => h (by cases hh; rfl)
    | .error a, .error b =>
      if h : a = b then isTrue (h ▸ rfl) else isFalse fun hh => h (by cases hh; rfl)
    | .ok _, .error _ => isFalse fun hh => Except.noConfusion hh
    | .error _, .ok _ => isFalse fun hh => Except.noConfusion hh

/-- The transport calls an operation performed, successful or not. -/
def resEvents {α : Type} : Res α → List Ev
  | .ok (_, _, ev) => ev
  | .error (_, _, ev) => ev

/-- The driver state an operation left behind, successful or not. -/
def resState {α : Type} : Res α → St
  | .ok (_, s, _) => s
  | .error (_, s, _) => s

/-- Whether an operation raised `ivi.ValueNotSupportedException`. -/
def isValueNotSupported {α : Type} : Res α → Bool
  | .error (.valueNotSupported, _, _) => true
  | _ => false

/-- Python dict lookup `m[k]` / membership `k in m`, on an association
list in insertion order. -/
def lookup (m : List (String × String)) (k : String) : Option String :=
  (m.find? (fun p => p.1 == k)).map Prod.snd

/-- The reverse lookup `[k for k, v in m.items() if v == value][0]`:
first key whose value equals `wire`, `none` when the comprehension is
empty (Python raises `IndexError`). -/
def revLookup (m : List (String × String)) (wire : String) : Option String :=
  (m.find? (fun p => p.2 == wire)).map Prod.fst

/-- The double-quote character, written by code to avoid quoting issues. -/
def dq : Char := Char.ofNat 34

/-- The single-quote character. -/
def sq : String := String.mk [Char.ofNat 39]

/-- The Python strip of double quotes applied to device replies: remove
all leading and trailing double-quote characters. -/
def stripQuotes (s : String) : String :=
  String.mk (((s.toList.dropWhile (· == dq)).reverse.dropWhile (· == dq)).reverse)

/-- Lower-case an ASCII character; device replies are ASCII, so this is
the Python lower-casing applied to them. -/
def lowerChar (c : Char) : Char :=
  if 65 ≤ c.toNat ∧ c.toNat ≤ 90 then Char.ofNat (c.toNat + 32) else c

/-- The Python lower-casing of an ASCII device reply. -/
def toLowerStr (s : String) : String := String.mk (s.toList.map lowerChar)

/-- ASCII whitespace, as stripped by the Python numeric conversions. -/
def isSpaceChar (c : Char) : Bool :=
  c.toNat = 32 ∨ c.toNat = 9 ∨ c.toNat = 10 ∨ c.toNat = 13

/-- Strip leading and trailing whitespace from a character list. -/
def trimChars (l : List Char) : List Char :=
  ((l.dropWhile isSpaceChar).reverse.dropWhile isSpaceChar).reverse

/-- Parse a nonempty run of decimal digits. -/
def digitsToNat : List Char → Option Nat
  | [] => none
  | l =>
    l.foldl
      (fun acc? c =>
        acc?.bind fun acc =>
          if 48 ≤ c.toNat ∧ c.toNat ≤ 57 then some (acc * 10 + (c.toNat - 48))
          else none)
      (some 0)

/-- Python `int(value)` on a numeric argument: truncation toward zero
(`Int.tdiv` is T-division). -/
def truncQ (q : ℚ) : Int := Int.tdiv q.num q.den

/-- Strip an optional leading sign, returning whether it was a minus. -/
def splitSign : List Char → Bool × List Char
  | c :: rest =>
    if c.toNat = 45 then (true, rest)
    else if c.toNat = 43 then (false, rest)
    else (false, c :: rest)
  | [] => (false, [])

/-- Python `float(reply)` on a device reply: optional sign, integer digits
and an optional fractional part.  The exponent forms Python also accepts
are not needed by any claim and are omitted. -/
def parseRat (str : String) : Option ℚ :=
  let p := splitSign (trimChars str.toList)
  let intPart := p.2.takeWhile (fun c => ¬ c.toNat = 46)
  match p.2.dropWhile (fun c => ¬ c.toNat = 46) with
  | [] => (digitsToNat intPart).map fun n => if p.1 then -(n : ℚ) else (n : ℚ)
  | _ :: frac =>
    if frac.any (fun c => c.toNat = 46) then none
    else
      match digitsToNat intPart, digitsToNat frac with
      | some n, some f =>
        let d : Nat := 10 ^ frac.length
        let v : ℚ := Rat.divInt ((n : ℤ) * d + f) d
        some (if p.1 then -v else v)
      | _, _ => none

/-- Python `int(reply)` on a device reply: optional sign and decimal
digits, surrounding whitespace stripped. -/
def parseInt (str : String) : Option Int :=
  let p := splitSign (trimChars str.toList)
  (digitsToNat p.2).map fun n => if p.1 then -(n : ℤ) else (n : ℤ)

def MeasurementFunctionMapping : List (String × String) :=
  [("dc_volts", "volt:dc"),
   ("ac_volts", "volt:ac"),
   ("dc_current", "curr:dc"),
   ("ac_current", "curr:ac"),
   ("two_wire_resistance", "res"),
   ("four_wire_resistance", "fres"),
   ("frequency", "freq"),
   ("period", "per"),
   ("continuity", "cont"),
   ("diode", "diod")]

def MeasurementDigitsMapping : List (String × String) :=
  [("dc_volts", "volt:dc:digits"),
   ("ac_volts", "volt:ac:digits"),
   ("dc_current", "curr:dc:digits"),
   ("ac_current", "curr:ac:digits"),
   ("two_wire_resistance", "res:digits"),
   ("four_wire_resistance", "fres:digits")]

def MeasurementNPLCMapping : List (String × String) :=
  [("dc_volts", "volt:dc:nplc"),
   ("ac_volts", "volt:ac:nplc"),
   ("dc_current", "curr:dc:nplc"),
   ("ac_current", "curr:ac:nplc"),
   ("two_wire_resistance", "res:nplc"),
   ("four_wire_resistance", "fres:nplc")]

def MeasurementFilterMapping : List (String × String) :=
  [("dc_volts", "volt:dc:aver"),
   ("ac_volts", "volt:ac:aver"),
   ("dc_current", "curr:dc:aver"),
   ("ac_current", "curr:ac:aver"),
   ("two_wire_resistance", "res:aver"),
   ("four_wire_resistance", "fres:aver")]

def FilterTypeMapping : List (String × String) :=
  [("moving_average", "mov"),
   ("repeat", "rep")]

/-- Modelled from the spec: `dmm.Auto2`, the enumerated domain of the
`measurement.continuous` and `filter.enabled` settings, lives in the `dmm`
base module outside the excerpt; the spec (sections 3, 4.2) describes these
as enumerated on/off-style string settings.  None of the claims depends on
the exact membership beyond `on`/`off`. -/
def Auto2 : List String := ["off", "on", "once"]

/-- Embeds `_get_measurement_function`. -/
def get_measurement_function (tr : Transport) (s : St) : Res String :=
  if s.simulate = false ∧ s.v_function = false then
    match tr.ask ":sense:function?" with
    | .error e => .error (.transport e, s, [.askEv ":sense:function?"])
    | .ok reply =>
      match revLookup MeasurementFunctionMapping (stripQuotes (toLowerStr reply)) with
      | none => .error (.indexError, s, [.askEv ":sense:function?"])
      | some k =>
        .ok (k, { s with measurement_function := k, v_function := true },
             [.askEv ":sense:function?"])
  else .ok (s.measurement_function, s, [])

/-- Embeds `_set_measurement_function`: validate against the function table, write
the function command when not simulating, store, mark valid, and mark the
whole dependency set stale. -/
def set_measurement_function (tr : Transport) (s : St) (value : String) :
    Res Unit :=
  match lookup MeasurementFunctionMapping value with
  | none => .error (.valueNotSupported, s, [])
  | some wire =>
    if s.simulate then
      .ok ((), { s with
        measurement_function := value, v_function := true,
        v_range := false, v_auto_range := false, v_digits := false,
        v_nplc := false, v_filter_enabled := false, v_filter_type := false,
        v_filter_count := false }, [])
    else
      match tr.write (":sense:function " ++ sq ++ wire ++ sq) with
      | .error e =>
        .error (.transport e, s,
                [.writeEv (":sense:function " ++ sq ++ wire ++ sq)])
      | .ok _ =>
        .ok ((), { s with
          measurement_function := value, v_function := true,
          v_range := false, v_auto_range := false, v_digits := false,
          v_nplc := false, v_filter_enabled := false, v_filter_type := false,
          v_filter_count := false },
          [.writeEv (":sense:function " ++ sq ++ wire ++ sq)])

/-- Embeds `_get_digits`. -/
def get_digits (tr : Transport) (s : St) : Res Int :=
  if s.simulate = false ∧ s.v_digits = false then
    match get_measurement_function tr s with
    | .error e => .error e
    | .ok (func, s1, ev1) =>
      match lookup MeasurementDigitsMapping func with
      | none => .ok (s1.digits, s1, ev1)
      | some cmd =>
        match tr.ask (cmd ++ "?") with
        | .error e => .error (.transport e, s1, ev1 ++ [.askEv (cmd ++ "?")])
        | .ok reply =>
          match parseInt reply with
          | none => .error (.parseError, s1, ev1 ++ [.askEv (cmd ++ "?")])
          | some v =>
            .ok (v, { s1 with digits := v, v_digits := true },
                 ev1 ++ [.askEv (cmd ++ "?")])
  else .ok (s.digits, s, [])

/-- Embeds `_set_digits`. -/
def set_digits (tr : Transport) (s : St) (value : ℚ) : Res Unit :=
  if truncQ value < 4 ∨ 7 < truncQ value then .error (.valueNotSupported, s, [])
  else
    if s.simulate then
      .ok ((), { s with digits := truncQ value, v_digits := true }, [])
    else
      match get_measurement_function tr s with
      | .error e => .error e
      | .ok (func, s1, ev1) =>
        match lookup MeasurementDigitsMapping func with
        | none => .ok ((), { s1 with digits := truncQ value, v_digits := true }, ev1)
        | some cmd =>
          match tr.write (cmd ++ " " ++ toString (truncQ value)) with
          | .error e =>
            .error (.transport e, s1, ev1 ++ [.writeEv (cmd ++ " " ++ toString (truncQ value))])
          | .ok _ =>
            .ok ((), { s1 with digits := truncQ value, v_digits := true },
                 ev1 ++ [.writeEv (cmd ++ " " ++ toString (truncQ value))])

/-- Embeds `_get_nplc`. -/
def get_nplc (tr : Transport) (s : St) : Res ℚ :=
  if s.simulate = false ∧ s.v_nplc = false then
    match get_measurement_function tr s with
    | .error e => .error e
    | .ok (func, s1, ev1) =>
      match lookup MeasurementNPLCMapping func with
      | none => .ok (s1.nplc, s1, ev1)
      | some cmd =>
        match tr.ask (cmd ++ "?") with
        | .error e => .error (.transport e, s1, ev1 ++ [.askEv (cmd ++ "?")])
        | .ok reply =>
          match parseRat reply with
          | none => .error (.parseError, s1, ev1 ++ [.askEv (cmd ++ "?")])
          | some v =>
            .ok (v, { s1 with nplc := v, v_nplc := true }, ev1 ++ [.askEv (cmd ++ "?")])
  else .ok (s.nplc, s, [])

/-- Embeds `_set_nplc`; `float(value)` is the identity on the rational model. -/
def set_nplc (tr : Transport) (s : St) (value : ℚ) : Res Unit :=
  if value < Rat.divInt 1 100 ∨ 10 < value then .error (.valueNotSupported, s, [])
  else
    if s.simulate then .ok ((), { s with nplc := value, v_nplc := true }, [])
    else
      match get_measurement_function tr s with
      | .error e => .error e
      | .ok (func, s1, ev1) =>
        match lookup MeasurementNPLCMapping func with
        | none => .ok ((), { s1 with nplc := value, v_nplc := true }, ev1)
        | some cmd =>
          match tr.write (cmd ++ " " ++ toString value) with
          | .error e =>
            .error (.transport e, s1, ev1 ++ [.writeEv (cmd ++ " " ++ toString value)])
          | .ok _ =>
            .ok ((), { s1 with nplc := value, v_nplc := true },
                 ev1 ++ [.writeEv (cmd ++ " " ++ toString value)])

/-- Embeds `_get_measurement_continuous`.  A reply other than `0`/`1` is kept as
the raw integer in Python; the model stores its decimal rendering, a
representation choice no claim depends on. -/
def get_measurement_continuous (tr : Transport) (s : St) : Res String :=
  if s.simulate = false ∧ s.v_continuous = false then
    match tr.ask ":init:cont?" with
    | .error e => .error (.transport e, s, [.askEv ":init:cont?"])
    | .ok reply =>
      match parseInt reply with
      | none => .error (.parseError, s, [.askEv ":init:cont?"])
      | some v =>
        let value := if v = 0 then "off" else if v = 1 then "on" else toString v
        .ok (value, { s with measurement_continuous := value, v_continuous := true },
             [.askEv ":init:cont?"])
  else .ok (s.measurement_continuous, s, [])

/-- Embeds `_set_measurement_continuous`; the percent-d format renders the
boolean comparison with the on value as 1 or 0. -/
def set_measurement_continuous (tr : Transport) (s : St) (value : String) :
    Res Unit :=
  if value ∉ Auto2 then .error (.valueNotSupported, s, [])
  else
    if s.simulate then
      .ok ((), { s with measurement_continuous := value, v_continuous := true }, [])
    else
      match tr.write (":init:cont " ++ (if value == "on" then "1" else "0")) with
      | .error e =>
        .error (.transport e, s,
                [.writeEv (":init:cont " ++ (if value == "on" then "1" else "0"))])
      | .ok _ =>
        .ok ((), { s with measurement_continuous := value, v_continuous := true },
             [.writeEv (":init:cont " ++ (if value == "on" then "1" else "0"))])

/-- Embeds `_get_filter_enabled`.  As with `measurement.continuous`, a reply other
than `0`/`1` is kept raw in Python and rendered decimally here. -/
def get_filter_enabled (tr : Transport) (s : St) : Res String :=
  if s.simulate = false ∧ s.v_filter_enabled = false then
    match get_measurement_function tr s with
    | .error e => .error e
    | .ok (func, s1, ev1) =>
      match lookup MeasurementFilterMapping func with
      | none => .ok (s1.filter_enabled, s1, ev1)
      | some cmd =>
        match tr.ask (cmd ++ ":stat?") with
        | .error e => .error (.transport e, s1, ev1 ++ [.askEv (cmd ++ ":stat?")])
        | .ok reply =>
          match parseInt reply with
          | none => .error (.parseError, s1, ev1 ++ [.askEv (cmd ++ ":stat?")])
          | some v =>
            .ok (if v = 0 then "off" else if v = 1 then "on" else toString v,
                 { s1 with
                   filter_enabled :=
                     if v = 0 then "off" else if v = 1 then "on" else toString v,
                   v_filter_enabled := true },
                 ev1 ++ [.askEv (cmd ++ ":stat?")])
  else .ok (s.filter_enabled, s, [])

/-- Embeds `_set_filter_enabled`. -/
def set_filter_enabled (tr : Transport) (s : St) (value : String) : Res Unit :=
  if value ∉ Auto2 then .error (.valueNotSupported, s, [])
  else
    if s.simulate then
      .ok ((), { s with filter_enabled := value, v_filter_enabled := true }, [])
    else
      match get_measurement_function tr s with
      | .error e => .error e
      | .ok (func, s1, ev1) =>
        match lookup MeasurementFilterMapping func with
        | none =>
          .ok ((), { s1 with filter_enabled := value, v_filter_enabled := true },
               ev1)
        | some cmd =>
          match tr.write (cmd ++ ":stat " ++ (if value == "on" then "1" else "0")) with
          | .error e =>
            .error (.transport e, s1,
                    ev1 ++ [.writeEv (cmd ++ ":stat " ++ (if value == "on" then "1" else "0"))])
          | .ok _ =>
            .ok ((), { s1 with filter_enabled := value, v_filter_enabled := true },
                 ev1 ++ [.writeEv (cmd ++ ":stat " ++ (if value == "on" then "1" else "0"))])

/-- Embeds `_get_filter_count`. -/
def get_filter_count (tr : Transport) (s : St) : Res Int :=
  if s.simulate = false ∧ s.v_filter_count = false then
    match get_measurement_function tr s with
    | .error e => .error e
    | .ok (func, s1, ev1) =>
      match lookup MeasurementFilterMapping func with
      | none => .ok (s1.filter_count, s1, ev1)
      | some cmd =>
        match tr.ask (cmd ++ ":count?") with
        | .error e => .error (.transport e, s1, ev1 ++ [.askEv (cmd ++ ":count?")])
        | .ok reply =>
          match parseInt reply with
          | none => .error (.parseError, s1, ev1 ++ [.askEv (cmd ++ ":count?")])
          | some v =>
            .ok (v, { s1 with filter_count := v, v_filter_count := true },
                 ev1 ++ [.askEv (cmd ++ ":count?")])
  else .ok (s.filter_count, s, [])

/-- Embeds `_set_filter_count`. -/
def set_filter_count (tr : Transport) (s : St) (value : ℚ) : Res Unit :=
  if truncQ value < 1 ∨ 100 < truncQ value then .error (.valueNotSupported, s, [])
  else
    if s.simulate then
      .ok ((), { s with filter_count := truncQ value, v_filter_count := true }, [])
    else
      match get_measurement_function tr s with
      | .error e => .error e
      | .ok (func, s1, ev1) =>
        match lookup MeasurementFilterMapping func with
        | none =>
          .ok ((), { s1 with filter_count := truncQ value, v_filter_count := true }, ev1)
        | some cmd =>
          match tr.write (cmd ++ ":count " ++ toString (truncQ value)) with
          | .error e =>
            .error (.transport e, s1, ev1 ++ [.writeEv (cmd ++ ":count " ++ toString (truncQ value))])
          | .ok _ =>
            .ok ((), { s1 with filter_count := truncQ value, v_filter_count := true },
                 ev1 ++ [.writeEv (cmd ++ ":count " ++ toString (truncQ value))])

/-- Embeds `_get_filter_type`. -/
def get_filter_type (tr : Transport) (s : St) : Res String :=
  if s.simulate = false ∧ s.v_filter_type = false then
    match get_measurement_function tr s with
    | .error e => .error e
    | .ok (func, s1, ev1) =>
      match lookup MeasurementFilterMapping func with
      | none => .ok (s1.filter_type, s1, ev1)
      | some cmd =>
        match tr.ask (cmd ++ ":tcon?") with
        | .error e => .error (.transport e, s1, ev1 ++ [.askEv (cmd ++ ":tcon?")])
        | .ok reply =>
          match revLookup FilterTypeMapping (stripQuotes (toLowerStr reply)) with
          | none => .error (.indexError, s1, ev1 ++ [.askEv (cmd ++ ":tcon?")])
          | some k =>
            .ok (k, { s1 with filter_type := k, v_filter_type := true },
                 ev1 ++ [.askEv (cmd ++ ":tcon?")])
  else .ok (s.filter_type, s, [])

/-- Embeds `_set_filter_type`. -/
def set_filter_type (tr : Transport) (s : St) (value : String) : Res Unit :=
  match lookup FilterTypeMapping value with
  | none => .error (.valueNotSupported, s, [])
  | some wire =>
    if s.simulate then
      .ok ((), { s with filter_type := value, v_filter_type := true }, [])
    else
      match get_measurement_function tr s with
      | .error e => .error e
      | .ok (func, s1, ev1) =>
        match lookup MeasurementFilterMapping func with
        | none =>
          .ok ((), { s1 with filter_type := value, v_filter_type := true }, ev1)
        | some cmd =>
          match tr.write (cmd ++ ":tcon " ++ wire) with
          | .error e =>
            .error (.transport e, s1, ev1 ++ [.writeEv (cmd ++ ":tcon " ++ wire)])
          | .ok _ =>
            .ok ((), { s1 with filter_type := value, v_filter_type := true },
                 ev1 ++ [.writeEv (cmd ++ ":tcon " ++ wire)])

/-- One abstract get/set operation on the driver, for stating properties of
arbitrary operation sequences. -/
inductive Op where
  | getFunction
  | setFunction (v : String)
  | getDigits
  | setDigits (v : ℚ)
  | getNplc
  | setNplc (v : ℚ)
  | getContinuous
  | setContinuous (v : String)
  | getFilterEnabled
  | setFilterEnabled (v : String)
  | getFilterType
  | setFilterType (v : String)
  | getFilterCount
  | setFilterCount (v : ℚ)

/-- Run one operation, keeping only the state and the transport trace. -/
def runOp (tr : Transport) (s : St) : Op → Except (Err × St × List Ev) (St × List Ev)
  | .getFunction => (get_measurement_function tr s).map fun r => (r.2.1, r.2.2)
  | .setFunction v => (set_measurement_function tr s v).map fun r => (r.2.1, r.2.2)
  | .getDigits => (get_digits tr s).map fun r => (r.2.1, r.2.2)
  | .setDigits v => (set_digits tr s v).map fun r => (r.2.1, r.2.2)
  | .getNplc => (get_nplc tr s).map fun r => (r.2.1, r.2.2)
  | .setNplc v => (set_nplc tr s v).map fun r => (r.2.1, r.2.2)
  | .getContinuous => (get_measurement_continuous tr s).map fun r => (r.2.1, r.2.2)
  | .setContinuous v => (set_measurement_continuous tr s v).map fun r => (r.2.1, r.2.2)
  | .getFilterEnabled => (get_filter_enabled tr s).map fun r => (r.2.1, r.2.2)
  | .setFilterEnabled v => (set_filter_enabled tr s v).map fun r => (r.2.1, r.2.2)
  | .getFilterType => (get_filter_type tr s).map fun r => (r.2.1, r.2.2)
  | .setFilterType v => (set_filter_type tr s v).map fun r => (r.2.1, r.2.2)
  | .getFilterCount => (get_filter_count tr s).map fun r => (r.2.1, r.2.2)
  | .setFilterCount v => (set_filter_count tr s v).map fun r => (r.2.1, r.2.2)

/-- Run a sequence of operations, accumulating the transport trace and
stopping at the first raised error (whose trace is kept). -/
def runOps (tr : Transport) : St → List Op → St × List Ev
  | s, [] => (s, [])
  | s, op :: rest =>
    match runOp tr s op with
    | .ok (s1, ev) =>
      let r := runOps tr s1 rest
      (r.1, ev ++ r.2)
    | .error (_, s1, ev) => (s1, ev)

/-- A transport whose device is set to dc volts and answers every numeric
query with 6; writes succeed. -/
def trOk : Transport where
  ask := fun c => .ok (if c == ":sense:function?" then "VOLT:DC" else "6")
  write := fun _ => .ok ()

/-- A transport whose device is set to frequency. -/
def trFreq : Transport where
  ask := fun c => .ok (if c == ":sense:function?" then "FREQ" else "6")
  write := fun _ => .ok ()

/-- A transport answering the function query with a token outside the
function table and the filter-type query with a quoted upper-case token of
the filter-type table. -/
def trTok : Transport where
  ask := fun c =>
    .ok (if c == "volt:dc:aver:tcon?" then String.mk [dq] ++ "REP" ++ String.mk [dq]
         else "XYZ")
  write := fun _ => .ok ()

/-- A transport on which every call fails. -/
def trFail : Transport where
  ask := fun _ => .error "timeout"
  write := fun _ => .error "timeout"

/-- A non-simulated state with every attribute cached as valid. -/
def stValid : St where
  simulate := false
  measurement_function := "dc_volts"
  digits := 6
  nplc := 1
  filter_enabled := "off"
  filter_type := "moving_average"
  filter_count := 10
  measurement_continuous := "off"
  v_function := true
  v_range := true
  v_auto_range := true
  v_digits := true
  v_nplc := true
  v_filter_enabled := true
  v_filter_type := true
  v_filter_count := true
  v_continuous := true

/-- The state `stValid` in simulate mode. -/
def stSim : St := { stValid with simulate := true }

/-- A non-simulated state with every attribute stale. -/
def stStaleAll : St :=
  { stValid with
    v_function := false, v_range := false, v_auto_range := false,
    v_digits := false, v_nplc := false, v_filter_enabled := false,
    v_filter_type := false, v_filter_count := false, v_continuous := false }

/-- The state `stValid` with only the measurement-function cache stale. -/
def stFnStale : St := { stValid with v_function := false }

/-- The state `stValid` with only the filter-type cache stale. -/
def stFtStale : St := { stValid with v_filter_type := false }

/-- The state `stValid` with the cached function one that the
digits/NPLC/filter tables do not map. -/
def stFreq : St := { stValid with measurement_function := "frequency" }

/-- The state `set_measurement_function` leaves behind when switching
`stValid` to ac volts. -/
def stAfterAC : St :=
  { stValid with
    measurement_function := "ac_volts", v_function := true,
    v_range := false, v_auto_range := false, v_digits := false,
    v_nplc := false, v_filter_enabled := false, v_filter_type := false,
    v_filter_count := false }

/-- The state `set_nplc` on `trFreq` leaves behind when starting from
`stFnStale`: the nested function read refreshed the function cache. -/
def stNplcAfter : St :=
  { stFnStale with
    measurement_function := "frequency", v_function := true,
    nplc := 1, v_nplc := true }

/-- The state a first `get_digits` on `trOk` leaves behind when starting
from `stStaleAll`. -/
def stAfterGet : St :=
  { stStaleAll with
    measurement_function := "dc_volts", v_function := true,
    digits := 6, v_digits := true }

lemma truncQ_intCast (v : ℤ) : truncQ (v : ℚ) = v := by
  have h1 : ∀ a : ℤ, Int.tdiv a (Int.ofNat 1) = a := by
    intro a
    cases a <;> simp [Int.tdiv, Int.negSucc_eq]
  unfold truncQ
  rw [Rat.num_intCast, Rat.den_intCast]
  exact h1 v

lemma fn_cached (tr : Transport) (s : St) (hv : s.v_function = true) :
    get_measurement_function tr s = .ok (s.measurement_function, s, []) := by
  unfold get_measurement_function
  rw [if_neg]
  simp [hv]

lemma fn_ok_frame (tr : Transport) (s : St) (func : String) (s1 : St) (ev : List Ev)
    (h : get_measurement_function tr s = .ok (func, s1, ev)) :
    s1.measurement_function = func ∧
    s1.simulate = s.simulate ∧
    s1.digits = s.digits ∧ s1.v_digits = s.v_digits ∧
    s1.nplc = s.nplc ∧ s1.v_nplc = s.v_nplc ∧
    s1.filter_enabled = s.filter_enabled ∧ s1.v_filter_enabled = s.v_filter_enabled ∧
    s1.filter_type = s.filter_type ∧ s1.v_filter_type = s.v_filter_type ∧
    s1.filter_count = s.filter_count ∧ s1.v_filter_count = s.v_filter_count ∧
    s1.measurement_continuous = s.measurement_continuous ∧
    s1.v_continuous = s.v_continuous ∧
    s1.v_range = s.v_range ∧ s1.v_auto_range = s.v_auto_range ∧
    (s.simulate = false → s1.v_function = true) ∧
    (s.v_function = true → s1 = s ∧ func = s.measurement_function) := by
  unfold get_measurement_function at h
  split at h
  · rename_i hc
    split at h
    · exact absurd h (by simp)
    · split at h
      · exact absurd h (by simp)
      · simp only [Except.ok.injEq, Prod.mk.injEq] at h
        obtain ⟨hk, hs1, hev⟩ := h
        subst hs1
        simp_all
  · rename_i hc
    simp only [Except.ok.injEq, Prod.mk.injEq] at h
    obtain ⟨hk, hs1, hev⟩ := h
    subst hs1 hk
    simp_all

lemma fn_error_state (tr : Transport) (s : St) (e : Err) (s1 : St) (ev : List Ev)
    (h : get_measurement_function tr s = .error (e, s1, ev)) :
    s1 = s ∧ e ≠ .valueNotSupported := by
  unfold get_measurement_function at h
  split at h
  · split at h
    · simp only [Except.error.injEq, Prod.mk.injEq] at h
      obtain ⟨he, hs1, hev⟩ := h
      subst he hs1
      simp
    · split at h
      · simp only [Except.error.injEq, Prod.mk.injEq] at h
        obtain ⟨he, hs1, hev⟩ := h
        subst he hs1
        simp
      · exact absurd h (by simp)
  · exact absurd h (by simp)

/-- C1: After a successful `set(measurement.function, F2)` following a
prior caching of the function-scoped attributes under a different function
F1, every function-scoped attribute (range, auto_range, digits, nplc,
filter.enabled, filter.type, filter.count) is marked stale, while
`measurement.function` is marked valid and holds F2; a subsequent
non-simulated `get(digits)` re-queries the device whenever the digits
table maps F2. -/
theorem cascade_marks_dependents_stale (tr : Transport) (s : St)
    (F1 F2 : String) (s2 : St) (evs : List Ev)
    (hF1 : s.measurement_function = F1) (hne : F1 ≠ F2)
    (hcache : s.v_range = true ∧ s.v_auto_range = true ∧ s.v_digits = true ∧
      s.v_nplc = true ∧ s.v_filter_enabled = true ∧ s.v_filter_type = true ∧
      s.v_filter_count = true)
    (hset : set_measurement_function tr s F2 = .ok ((), s2, evs)) :
    s2.v_range = false ∧ s2.v_auto_range = false ∧ s2.v_digits = false ∧
    s2.v_nplc = false ∧ s2.v_filter_enabled = false ∧ s2.v_filter_type = false ∧
    s2.v_filter_count = false ∧ s2.v_function = true ∧
    s2.measurement_function = F2 ∧
    (s2.simulate = false →
      ∀ cmd, lookup MeasurementDigitsMapping F2 = some cmd →
        Ev.askEv (cmd ++ "?") ∈ resEvents (get_digits tr s2)) := by
  have main : ∀ s2' : St, s2'.v_function = true → s2'.v_digits = false →
      s2'.measurement_function = F2 →
      (s2'.simulate = false →
        ∀ cmd, lookup MeasurementDigitsMapping F2 = some cmd →
          Ev.askEv (cmd ++ "?") ∈ resEvents (get_digits tr s2')) := by
    intro s2' hvf hvd hmf hsim cmd hcmd
    unfold get_digits get_measurement_function
    simp only [hsim, hvd, hvf, hmf, hcmd]
    simp only [Bool.true_eq_false, and_false, if_neg, ite_false, if_false,
      not_false_eq_true, and_true, reduceIte]
    cases hask : tr.ask (cmd ++ "?") with
    | error e => simp [resEvents, hcmd, hask]
    | ok reply =>
      cases hp : parseInt reply with
      | none => simp [resEvents, hcmd, hask, hp]
      | some v => simp [resEvents, hcmd, hask, hp]
  unfold set_measurement_function at hset
  split at hset
  · exact absurd hset (by simp)
  · split at hset
    · simp only [Except.ok.injEq, Prod.mk.injEq] at hset
      obtain ⟨-, hs2, hev⟩ := hset
      subst hs2
      exact ⟨rfl, rfl, rfl, rfl, rfl, rfl, rfl, rfl, rfl, main _ rfl rfl rfl⟩
    · split at hset
      · exact absurd hset (by simp)
      · simp only [Except.ok.injEq, Prod.mk.injEq] at hset
        obtain ⟨-, hs2, hev⟩ := hset
        subst hs2
        exact ⟨rfl, rfl, rfl, rfl, rfl, rfl, rfl, rfl, rfl, main _ rfl rfl rfl⟩

/-- Witness for C1: switching the function from dc volts to ac volts on a
fully cached driver marks every dependent attribute stale, marks the
function valid holding the new value, and the next `get(digits)` queries
the device. -/
theorem cascade_marks_dependents_stale_witness :
    stValid.measurement_function = "dc_volts" ∧
    stAfterAC.v_range = false ∧ stAfterAC.v_auto_range = false ∧
    stAfterAC.v_digits = false ∧ stAfterAC.v_nplc = false ∧
    stAfterAC.v_filter_enabled = false ∧ stAfterAC.v_filter_type = false ∧
    stAfterAC.v_filter_count = false ∧ stAfterAC.v_function = true ∧
    stAfterAC.measurement_function = "ac_volts" ∧
    (stAfterAC.simulate = false →
      ∀ cmd, lookup MeasurementDigitsMapping "ac_volts" = some cmd →
        Ev.askEv (cmd ++ "?") ∈ resEvents (get_digits trOk stAfterAC)) := by
  have h := cascade_marks_dependents_stale trOk stValid "dc_volts" "ac_volts"
    stAfterAC [.writeEv (":sense:function " ++ sq ++ "volt:ac" ++ sq)]
    rfl (by decide) (by decide) (by decide)
  exact ⟨rfl, h.1, h.2.1, h.2.2.1, h.2.2.2.1, h.2.2.2.2.1, h.2.2.2.2.2.1,
    h.2.2.2.2.2.2.1, h.2.2.2.2.2.2.2.1, h.2.2.2.2.2.2.2.2.1,
    h.2.2.2.2.2.2.2.2.2⟩

lemma set_digits_not_vns (tr : Transport) (s : St) (v : ℚ)
    (h : ¬(truncQ v < 4 ∨ 7 < truncQ v)) :
    isValueNotSupported (set_digits tr s v) = false := by
  unfold set_digits
  rw [if_neg h]
  split
  · rfl
  · split
    · rename_i e heq
      obtain ⟨e1, s1, ev⟩ := e
      have h2 := fn_error_state tr s e1 s1 ev heq
      cases e1 <;> simp_all [isValueNotSupported]
    · split
      · rfl
      · split <;> rfl

lemma set_nplc_not_vns (tr : Transport) (s : St) (v : ℚ)
    (h : ¬(v < Rat.divInt 1 100 ∨ 10 < v)) :
    isValueNotSupported (set_nplc tr s v) = false := by
  unfold set_nplc
  rw [if_neg h]
  split
  · rfl
  · split
    · rename_i e heq
      obtain ⟨e1, s1, ev⟩ := e
      have h2 := fn_error_state tr s e1 s1 ev heq
      cases e1 <;> simp_all [isValueNotSupported]
    · split
      · rfl
      · split <;> rfl

lemma set_filter_count_not_vns (tr : Transport) (s : St) (v : ℚ)
    (h : ¬(truncQ v < 1 ∨ 100 < truncQ v)) :
    isValueNotSupported (set_filter_count tr s v) = false := by
  unfold set_filter_count
  rw [if_neg h]
  split
  · rfl
  · split
    · rename_i e heq
      obtain ⟨e1, s1, ev⟩ := e
      have h2 := fn_error_state tr s e1 s1 ev heq
      cases e1 <;> simp_all [isValueNotSupported]
    · split
      · rfl
      · split <;> rfl

/-- C2: Out-of-range values for digits (domain 4..7), NPLC (domain
0.01..10) and filter count (domain 1..100) raise an unsupported-value
error before any device I/O, leaving the state — in particular the cached
value and validity flag — untouched; in-range values, boundaries included,
pass validation and never raise an unsupported-value error. -/
theorem set_range_validation (tr : Transport) (s : St) :
    (∀ v : ℤ, (v < 4 ∨ 7 < v) →
      set_digits tr s (v : ℚ) = .error (.valueNotSupported, s, [])) ∧
    (∀ v : ℤ, 4 ≤ v → v ≤ 7 →
      isValueNotSupported (set_digits tr s (v : ℚ)) = false) ∧
    (∀ v : ℚ, (v < Rat.divInt 1 100 ∨ 10 < v) →
      set_nplc tr s v = .error (.valueNotSupported, s, [])) ∧
    (∀ v : ℚ, Rat.divInt 1 100 ≤ v → v ≤ 10 →
      isValueNotSupported (set_nplc tr s v) = false) ∧
    (∀ v : ℤ, (v < 1 ∨ 100 < v) →
      set_filter_count tr s (v : ℚ) = .error (.valueNotSupported, s, [])) ∧
    (∀ v : ℤ, 1 ≤ v → v ≤ 100 →
      isValueNotSupported (set_filter_count tr s (v : ℚ)) = false) := by
  refine ⟨?_, ?_, ?_, ?_, ?_, ?_⟩
  · intro v h
    unfold set_digits
    rw [truncQ_intCast, if_pos h]
  · intro v h4 h7
    exact set_digits_not_vns tr s _ (by rw [truncQ_intCast]; omega)
  · intro v h
    unfold set_nplc
    rw [if_pos h]
  · intro v h1 h2
    exact set_nplc_not_vns tr s v (by
      simp only [not_or, not_lt]
      exact ⟨h1, h2⟩)
  · intro v h
    unfold set_filter_count
    rw [truncQ_intCast, if_pos h]
  · intro v h1 h2
    exact set_filter_count_not_vns tr s _ (by rw [truncQ_intCast]; omega)

/-- Witness for C2 at the boundary and just-outside values. -/
theorem set_range_validation_witness :
    set_digits trOk stValid ((3 : ℤ) : ℚ) = .error (.valueNotSupported, stValid, []) ∧
    isValueNotSupported (set_digits trOk stValid ((4 : ℤ) : ℚ)) = false ∧
    isValueNotSupported (set_digits trOk stValid ((7 : ℤ) : ℚ)) = false ∧
    set_nplc trOk stValid (Rat.divInt 5 1000) = .error (.valueNotSupported, stValid, []) ∧
    set_nplc trOk stValid 15 = .error (.valueNotSupported, stValid, []) ∧
    isValueNotSupported (set_nplc trOk stValid (Rat.divInt 1 100)) = false ∧
    isValueNotSupported (set_nplc trOk stValid 10) = false ∧
    set_filter_count trOk stValid ((0 : ℤ) : ℚ) = .error (.valueNotSupported, stValid, []) ∧
    isValueNotSupported (set_filter_count trOk stValid ((1 : ℤ) : ℚ)) = false ∧
    isValueNotSupported (set_filter_count trOk stValid ((100 : ℤ) : ℚ)) = false :=
  ⟨(set_range_validation trOk stValid).1 3 (by decide),
   (set_range_validation trOk stValid).2.1 4 (by decide) (by decide),
   (set_range_validation trOk stValid).2.1 7 (by decide) (by decide),
   (set_range_validation trOk stValid).2.2.1 (Rat.divInt 5 1000) (by decide),
   (set_range_validation trOk stValid).2.2.1 15 (by decide),
   (set_range_validation trOk stValid).2.2.2.1 (Rat.divInt 1 100) (by decide) (by decide),
   (set_range_validation trOk stValid).2.2.2.1 10 (by decide) (by decide),
   (set_range_validation trOk stValid).2.2.2.2.1 0 (by decide),
   (set_range_validation trOk stValid).2.2.2.2.2 1 (by decide) (by decide),
   (set_range_validation trOk stValid).2.2.2.2.2 100 (by decide) (by decide)⟩

/-- C3: After `set(measurement.function, frequency)` — a function with
no entry in the digits/NPLC/filter tables — `get(filter.count)` returns the
previous in-memory value, leaves its validity flag stale and issues no
device call, while `get(measurement.function)` returns `frequency` with no
device call. -/
theorem frequency_filter_count_no_query (tr : Transport) (s : St) (u : Unit)
    (s1 : St) (ev : List Ev)
    (hset : set_measurement_function tr s "frequency" = .ok (u, s1, ev)) :
    get_filter_count tr s1 = .ok (s.filter_count, s1, []) ∧
    s1.v_filter_count = false ∧
    get_measurement_function tr s1 = .ok ("frequency", s1, []) := by
  have key : ∀ s2 : St, s2.measurement_function = "frequency" →
      s2.v_function = true → s2.v_filter_count = false →
      s2.filter_count = s.filter_count →
      get_filter_count tr s2 = .ok (s.filter_count, s2, []) ∧
      s2.v_filter_count = false ∧
      get_measurement_function tr s2 = .ok ("frequency", s2, []) := by
    intro s2 hmf hvf hvc hfc
    have hfn := fn_cached tr s2 hvf
    have hget : get_filter_count tr s2 = .ok (s2.filter_count, s2, []) := by
      unfold get_filter_count
      split
      · rw [hfn]
        simp only [hmf]
        rfl
      · rfl
    exact ⟨hget.trans (by rw [hfc]), hvc, hfn.trans (by rw [hmf])⟩
  unfold set_measurement_function at hset
  simp only [show lookup MeasurementFunctionMapping "frequency" = some "freq" from rfl]
    at hset
  split at hset
  · cases hset
    exact key _ rfl rfl rfl rfl
  · split at hset
    · exact absurd hset (by simp)
    · cases hset
      exact key _ rfl rfl rfl rfl

/-- Witness for C3: on a fully cached non-simulated driver, switching to
frequency then reading the filter count returns the old count 10 with no
device traffic, while the function reads back as frequency. -/
theorem frequency_filter_count_no_query_witness :
    set_measurement_function trOk stValid "frequency" =
      .ok ((), { stAfterAC with measurement_function := "frequency" },
           [.writeEv (":sense:function " ++ sq ++ "freq" ++ sq)]) ∧
    get_filter_count trOk { stAfterAC with measurement_function := "frequency" } =
      .ok (10, { stAfterAC with measurement_function := "frequency" }, []) ∧
    ({ stAfterAC with measurement_function := "frequency" } : St).v_filter_count = false ∧
    get_measurement_function trOk { stAfterAC with measurement_function := "frequency" } =
      .ok ("frequency", { stAfterAC with measurement_function := "frequency" }, []) := by
  have h := frequency_filter_count_no_query trOk stValid ()
    { stAfterAC with measurement_function := "frequency" }
    [.writeEv (":sense:function " ++ sq ++ "freq" ++ sq)] (by decide)
  exact ⟨by decide, h.1, h.2.1, h.2.2⟩

/-- In simulate mode an operation leaves the simulate flag set and makes
no transport call. -/
def SimOk : Except (Err × St × List Ev) (St × List Ev) → Prop
  | .ok (s1, ev) => s1.simulate = true ∧ ev = []
  | .error (_, _, ev) => ev = []

lemma runOp_simulate (tr : Transport) (s : St) (hsim : s.simulate = true)
    (op : Op) : SimOk (runOp tr s op) := by
  cases op with
  | getFunction =>
    simp only [runOp]
    unfold get_measurement_function
    rw [if_neg (by simp [hsim])]
    simp [SimOk, Except.map, hsim]
  | setFunction v =>
    simp only [runOp]
    unfold set_measurement_function
    cases hl : lookup MeasurementFunctionMapping v with
    | none => simp [SimOk, Except.map]
    | some wire => simp [SimOk, Except.map, hsim]
  | getDigits =>
    simp only [runOp]
    unfold get_digits
    rw [if_neg (by simp [hsim])]
    simp [SimOk, Except.map, hsim]
  | setDigits v =>
    simp only [runOp]
    unfold set_digits
    by_cases hA : truncQ v < 4 ∨ 7 < truncQ v
    · simp [hA, SimOk, Except.map]
    · simp [hA, SimOk, Except.map, hsim]
  | getNplc =>
    simp only [runOp]
    unfold get_nplc
    rw [if_neg (by simp [hsim])]
    simp [SimOk, Except.map, hsim]
  | setNplc v =>
    simp only [runOp]
    unfold set_nplc
    by_cases hA : v < Rat.divInt 1 100 ∨ 10 < v
    · simp [hA, SimOk, Except.map]
    · simp [hA, SimOk, Except.map, hsim]
  | getContinuous =>
    simp only [runOp]
    unfold get_measurement_continuous
    rw [if_neg (by simp [hsim])]
    simp [SimOk, Except.map, hsim]
  | setContinuous v =>
    simp only [runOp]
    unfold set_measurement_continuous
    by_cases hA : v ∉ Auto2
    · simp [hA, SimOk, Except.map]
    · simp [hA, SimOk, Except.map, hsim]
  | getFilterEnabled =>
    simp only [runOp]
    unfold get_filter_enabled
    rw [if_neg (by simp [hsim])]
    simp [SimOk, Except.map, hsim]
  | setFilterEnabled v =>
    simp only [runOp]
    unfold set_filter_enabled
    by_cases hA : v ∉ Auto2
    · simp [hA, SimOk, Except.map]
    · simp [hA, SimOk, Except.map, hsim]
  | getFilterType =>
    simp only [runOp]
    unfold get_filter_type
    rw [if_neg (by simp [hsim])]
    simp [SimOk, Except.map, hsim]
  | setFilterType v =>
    simp only [runOp]
    unfold set_filter_type
    cases hl : lookup FilterTypeMapping v with
    | none => simp [SimOk, Except.map]
    | some wire => simp [SimOk, Except.map, hsim]
  | getFilterCount =>
    simp only [runOp]
    unfold get_filter_count
    rw [if_neg (by simp [hsim])]
    simp [SimOk, Except.map, hsim]
  | setFilterCount v =>
    simp only [runOp]
    unfold set_filter_count
    by_cases hA : truncQ v < 1 ∨ 100 < truncQ v
    · simp [hA, SimOk, Except.map]
    · simp [hA, SimOk, Except.map, hsim]

lemma runOps_simulate (tr : Transport) :
    ∀ (ops : List Op) (s : St), s.simulate = true → (runOps tr s ops).2 = []
  | [], s, _ => rfl
  | op :: rest, s, hsim => by
    unfold runOps
    have hP := runOp_simulate tr s hsim op
    cases hr : runOp tr s op with
    | ok p =>
      obtain ⟨s1, ev⟩ := p
      rw [hr] at hP
      obtain ⟨hs1, hev⟩ := hP
      simp only [hev, List.nil_append]
      exact runOps_simulate tr rest s1 hs1
    | error p =>
      obtain ⟨e, s1, ev⟩ := p
      rw [hr] at hP
      exact hP

/-- C4: In simulate mode no transport call (write, ask or clear)
occurs during any sequence of get/set operations, and every successful set
followed by the matching get returns exactly the value that was set. -/
theorem simulate_no_transport_and_roundtrip (tr : Transport) (s : St)
    (hsim : s.simulate = true) :
    (∀ ops : List Op, (runOps tr s ops).2 = []) ∧
    (∀ F u s1 ev, set_measurement_function tr s F = .ok (u, s1, ev) →
      get_measurement_function tr s1 = .ok (F, s1, [])) ∧
    (∀ v : ℤ, ∀ u s1 ev, set_digits tr s (v : ℚ) = .ok (u, s1, ev) →
      get_digits tr s1 = .ok (v, s1, [])) ∧
    (∀ v : ℚ, ∀ u s1 ev, set_nplc tr s v = .ok (u, s1, ev) →
      get_nplc tr s1 = .ok (v, s1, [])) ∧
    (∀ V u s1 ev, set_measurement_continuous tr s V = .ok (u, s1, ev) →
      get_measurement_continuous tr s1 = .ok (V, s1, [])) ∧
    (∀ V u s1 ev, set_filter_enabled tr s V = .ok (u, s1, ev) →
      get_filter_enabled tr s1 = .ok (V, s1, [])) ∧
    (∀ V u s1 ev, set_filter_type tr s V = .ok (u, s1, ev) →
      get_filter_type tr s1 = .ok (V, s1, [])) ∧
    (∀ v : ℤ, ∀ u s1 ev, set_filter_count tr s (v : ℚ) = .ok (u, s1, ev) →
      get_filter_count tr s1 = .ok (v, s1, [])) := by
  refine ⟨fun ops => runOps_simulate tr ops s hsim, ?_, ?_, ?_, ?_, ?_, ?_, ?_⟩
  · intro F u s1 ev h
    unfold set_measurement_function at h
    cases hl : lookup MeasurementFunctionMapping F with
    | none =>
      simp only [hl] at h
      exact absurd h (by simp)
    | some wire =>
      simp only [hl] at h
      rw [if_pos hsim] at h
      cases h
      unfold get_measurement_function
      rw [if_neg (by simp [hsim])]
  · intro v u s1 ev h
    unfold set_digits at h
    simp only [truncQ_intCast] at h
    by_cases hA : v < 4 ∨ 7 < v
    · rw [if_pos hA] at h
      exact absurd h (by simp)
    · rw [if_neg hA, if_pos hsim] at h
      cases h
      unfold get_digits
      rw [if_neg (by simp [hsim])]
  · intro v u s1 ev h
    unfold set_nplc at h
    by_cases hA : v < Rat.divInt 1 100 ∨ 10 < v
    · rw [if_pos hA] at h
      exact absurd h (by simp)
    · rw [if_neg hA, if_pos hsim] at h
      cases h
      unfold get_nplc
      rw [if_neg (by simp [hsim])]
  · intro V u s1 ev h
    unfold set_measurement_continuous at h
    by_cases hA : V ∉ Auto2
    · rw [if_pos hA] at h
      exact absurd h (by simp)
    · rw [if_neg hA, if_pos hsim] at h
      cases h
      unfold get_measurement_continuous
      rw [if_neg (by simp [hsim])]
  · intro V u s1 ev h
    unfold set_filter_enabled at h
    by_cases hA : V ∉ Auto2
    · rw [if_pos hA] at h
      exact absurd h (by simp)
    · rw [if_neg hA, if_pos hsim] at h
      cases h
      unfold get_filter_enabled
      rw [if_neg (by simp [hsim])]
  · intro V u s1 ev h
    unfold set_filter_type at h
    cases hl : lookup FilterTypeMapping V with
    | none =>
      simp only [hl] at h
      exact absurd h (by simp)
    | some wire =>
      simp only [hl] at h
      rw [if_pos hsim] at h
      cases h
      unfold get_filter_type
      rw [if_neg (by simp [hsim])]
  · intro v u s1 ev h
    unfold set_filter_count at h
    simp only [truncQ_intCast] at h
    by_cases hA : v < 1 ∨ 100 < v
    · rw [if_pos hA] at h
      exact absurd h (by simp)
    · rw [if_neg hA, if_pos hsim] at h
      cases h
      unfold get_filter_count
      rw [if_neg (by simp [hsim])]

/-- Witness for C4: on a transport where every call fails, a simulated
driver still runs a mixed get/set sequence with an empty transport trace,
and a set digits to 5 reads back as 5. -/
theorem simulate_no_transport_and_roundtrip_witness :
    (runOps trFail stSim
      [Op.getDigits, Op.setNplc 20, Op.setFunction "ac_volts",
       Op.getFilterType, Op.setDigits 5, Op.getDigits]).2 = [] ∧
    get_digits trFail { stSim with digits := 5, v_digits := true } =
      .ok (5, { stSim with digits := 5, v_digits := true }, []) :=
  ⟨(simulate_no_transport_and_roundtrip trFail stSim rfl).1
      [Op.getDigits, Op.setNplc 20, Op.setFunction "ac_volts",
       Op.getFilterType, Op.setDigits 5, Op.getDigits],
   (simulate_no_transport_and_roundtrip trFail stSim rfl).2.2.1 5 ()
      { stSim with digits := 5, v_digits := true } [] (by decide)⟩

/-- C5 counterexample: Two successive `get(digits)` calls with both
the digits and the measurement-function caches stale perform two device
round-trips in total, not at most one: the first get must also resolve the
measurement function. -/
theorem two_gets_two_roundtrips_counterexample :
    get_digits trOk stStaleAll =
      .ok (6, stAfterGet, [.askEv ":sense:function?", .askEv "volt:dc:digits?"]) ∧
    get_digits trOk stAfterGet = .ok (6, stAfterGet, []) ∧
    (resEvents (get_digits trOk stStaleAll)).length +
      (resEvents (get_digits trOk stAfterGet)).length = 2 :=
  ⟨by decide, by decide, by decide⟩

/-- C5 amended: If any get succeeds, an immediately repeated get of the
same attribute performs no device I/O and returns the same value and
state; the first get alone may take up to two round-trips when the
measurement-function cache is also stale. -/
theorem second_get_no_io (tr : Transport) (s : St) :
    (∀ v s1 ev, get_measurement_function tr s = .ok (v, s1, ev) →
      get_measurement_function tr s1 = .ok (v, s1, [])) ∧
    (∀ v s1 ev, get_digits tr s = .ok (v, s1, ev) →
      get_digits tr s1 = .ok (v, s1, [])) ∧
    (∀ v s1 ev, get_nplc tr s = .ok (v, s1, ev) →
      get_nplc tr s1 = .ok (v, s1, [])) ∧
    (∀ v s1 ev, get_measurement_continuous tr s = .ok (v, s1, ev) →
      get_measurement_continuous tr s1 = .ok (v, s1, [])) ∧
    (∀ v s1 ev, get_filter_enabled tr s = .ok (v, s1, ev) →
      get_filter_enabled tr s1 = .ok (v, s1, [])) ∧
    (∀ v s1 ev, get_filter_type tr s = .ok (v, s1, ev) →
      get_filter_type tr s1 = .ok (v, s1, [])) ∧
    (∀ v s1 ev, get_filter_count tr s = .ok (v, s1, ev) →
      get_filter_count tr s1 = .ok (v, s1, [])) := by
  refine ⟨?_, ?_, ?_, ?_, ?_, ?_, ?_⟩
  · intro v s1 ev h
    unfold get_measurement_function at h
    split at h
    · split at h
      · exact absurd h (by simp)
      · split at h
        · exact absurd h (by simp)
        · simp only [Except.ok.injEq, Prod.mk.injEq] at h
          obtain ⟨hv, hs1, hev⟩ := h
          subst hs1
          subst hv
          unfold get_measurement_function
          rw [if_neg (by simp)]
    · rename_i hc
      cases h
      unfold get_measurement_function
      rw [if_neg hc]
  · intro v s1 ev h
    unfold get_digits at h
    split at h
    · rename_i hc
      split at h
      · exact absurd h (by simp)
      · rename_i func s2 ev1 heq
        obtain ⟨hmf, hsim2, hdig, hvdig, hnp, hvnp, hfe, hvfe, hft, hvft,
          hfc2, hvfc, hmc, hvmc, hvr, hvar, hvfun, hfix⟩ :=
          fn_ok_frame tr s func s2 ev1 heq
        split at h
        · rename_i hl
          simp only [Except.ok.injEq, Prod.mk.injEq] at h
          obtain ⟨hv, hs1, hev⟩ := h
          subst hs1
          subst hv
          unfold get_digits
          rw [if_pos ⟨by rw [hsim2]; exact hc.1, by rw [hvdig]; exact hc.2⟩]
          rw [fn_cached tr s2 (hvfun hc.1)]
          simp only [hmf, hl]
        · split at h
          · exact absurd h (by simp)
          · split at h
            · exact absurd h (by simp)
            · cases h
              unfold get_digits
              rw [if_neg (by simp)]
    · rename_i hc
      cases h
      unfold get_digits
      rw [if_neg hc]
  · intro v s1 ev h
    unfold get_nplc at h
    split at h
    · rename_i hc
      split at h
      · exact absurd h (by simp)
      · rename_i func s2 ev1 heq
        obtain ⟨hmf, hsim2, hdig, hvdig, hnp, hvnp, hfe, hvfe, hft, hvft,
          hfc2, hvfc, hmc, hvmc, hvr, hvar, hvfun, hfix⟩ :=
          fn_ok_frame tr s func s2 ev1 heq
        split at h
        · rename_i hl
          simp only [Except.ok.injEq, Prod.mk.injEq] at h
          obtain ⟨hv, hs1, hev⟩ := h
          subst hs1
          subst hv
          unfold get_nplc
          rw [if_pos ⟨by rw [hsim2]; exact hc.1, by rw [hvnp]; exact hc.2⟩]
          rw [fn_cached tr s2 (hvfun hc.1)]
          simp only [hmf, hl]
        · split at h
          · exact absurd h (by simp)
          · split at h
            · exact absurd h (by simp)
            · cases h
              unfold get_nplc
              rw [if_neg (by simp)]
    · rename_i hc
      cases h
      unfold get_nplc
      rw [if_neg hc]
  · intro v s1 ev h
    unfold get_measurement_continuous at h
    split at h
    · split at h
      · exact absurd h (by simp)
      · split at h
        · exact absurd h (by simp)
        · simp only [Except.ok.injEq, Prod.mk.injEq] at h
          obtain ⟨hv, hs1, hev⟩ := h
          subst hs1
          subst hv
          unfold get_measurement_continuous
          rw [if_neg (by simp)]
    · rename_i hc
      cases h
      unfold get_measurement_continuous
      rw [if_neg hc]
  · intro v s1 ev h
    unfold get_filter_enabled at h
    split at h
    · rename_i hc
      split at h
      · exact absurd h (by simp)
      · rename_i func s2 ev1 heq
        obtain ⟨hmf, hsim2, hdig, hvdig, hnp, hvnp, hfe, hvfe, hft, hvft,
          hfc2, hvfc, hmc, hvmc, hvr, hvar, hvfun, hfix⟩ :=
          fn_ok_frame tr s func s2 ev1 heq
        split at h
        · rename_i hl
          simp only [Except.ok.injEq, Prod.mk.injEq] at h
          obtain ⟨hv, hs1, hev⟩ := h
          subst hs1
          subst hv
          unfold get_filter_enabled
          rw [if_pos ⟨by rw [hsim2]; exact hc.1, by rw [hvfe]; exact hc.2⟩]
          rw [fn_cached tr s2 (hvfun hc.1)]
          simp only [hmf, hl]
        · split at h
          · exact absurd h (by simp)
          · split at h
            · exact absurd h (by simp)
            · cases h
              unfold get_filter_enabled
              rw [if_neg (by simp)]
    · rename_i hc
      cases h
      unfold get_filter_enabled
      rw [if_neg hc]
  · intro v s1 ev h
    unfold get_filter_type at h
    split at h
    · rename_i hc
      split at h
      · exact absurd h (by simp)
      · rename_i func s2 ev1 heq
        obtain ⟨hmf, hsim2, hdig, hvdig, hnp, hvnp, hfe, hvfe, hft, hvft,
          hfc2, hvfc, hmc, hvmc, hvr, hvar, hvfun, hfix⟩ :=
          fn_ok_frame tr s func s2 ev1 heq
        split at h
        · rename_i hl
          simp only [Except.ok.injEq, Prod.mk.injEq] at h
          obtain ⟨hv, hs1, hev⟩ := h
          subst hs1
          subst hv
          unfold get_filter_type
          rw [if_pos ⟨by rw [hsim2]; exact hc.1, by rw [hvft]; exact hc.2⟩]
          rw [fn_cached tr s2 (hvfun hc.1)]
          simp only [hmf, hl]
        · split at h
          · exact absurd h (by simp)
          · split at h
            · exact absurd h (by simp)
            · cases h
              unfold get_filter_type
              rw [if_neg (by simp)]
    · rename_i hc
      cases h
      unfold get_filter_type
      rw [if_neg hc]
  · intro v s1 ev h
    unfold get_filter_count at h
    split at h
    · rename_i hc
      split at h
      · exact absurd h (by simp)
      · rename_i func s2 ev1 heq
        obtain ⟨hmf, hsim2, hdig, hvdig, hnp, hvnp, hfe, hvfe, hft, hvft,
          hfc2, hvfc, hmc, hvmc, hvr, hvar, hvfun, hfix⟩ :=
          fn_ok_frame tr s func s2 ev1 heq
        split at h
        · rename_i hl
          simp only [Except.ok.injEq, Prod.mk.injEq] at h
          obtain ⟨hv, hs1, hev⟩ := h
          subst hs1
          subst hv
          unfold get_filter_count
          rw [if_pos ⟨by rw [hsim2]; exact hc.1, by rw [hvfc]; exact hc.2⟩]
          rw [fn_cached tr s2 (hvfun hc.1)]
          simp only [hmf, hl]
        · split at h
          · exact absurd h (by simp)
          · split at h
            · exact absurd h (by simp)
            · cases h
              unfold get_filter_count
              rw [if_neg (by simp)]
    · rename_i hc
      cases h
      unfold get_filter_count
      rw [if_neg hc]

/-- Witness for the amended C5: repeating a successful stale digits get, a
successful stale function get, a successful stale filter-type get and a
cached nplc get, each second get with an empty trace. -/
theorem second_get_no_io_witness :
    get_digits trOk stStaleAll =
      .ok (6, stAfterGet, [.askEv ":sense:function?", .askEv "volt:dc:digits?"]) ∧
    get_digits trOk stAfterGet = .ok (6, stAfterGet, []) ∧
    get_measurement_function trOk stFnStale =
      .ok ("dc_volts", { stFnStale with v_function := true }, [.askEv ":sense:function?"]) ∧
    get_measurement_function trOk { stFnStale with v_function := true } =
      .ok ("dc_volts", { stFnStale with v_function := true }, []) ∧
    get_filter_type trTok stFtStale =
      .ok ("repeat",
           { stFtStale with filter_type := "repeat", v_filter_type := true },
           [.askEv "volt:dc:aver:tcon?"]) ∧
    get_filter_type trTok { stFtStale with filter_type := "repeat", v_filter_type := true } =
      .ok ("repeat",
           { stFtStale with filter_type := "repeat", v_filter_type := true }, []) ∧
    get_nplc trOk stValid = .ok (1, stValid, []) :=
  ⟨by decide,
   (second_get_no_io trOk stStaleAll).2.1 6 stAfterGet
     [.askEv ":sense:function?", .askEv "volt:dc:digits?"] (by decide),
   by decide,
   (second_get_no_io trOk stFnStale).1 "dc_volts"
     { stFnStale with v_function := true } [.askEv ":sense:function?"] (by decide),
   by decide,
   (second_get_no_io trTok stFtStale).2.2.2.2.2.1 "repeat"
     { stFtStale with filter_type := "repeat", v_filter_type := true }
     [.askEv "volt:dc:aver:tcon?"] (by decide),
   (second_get_no_io trOk stValid).2.2.1 1 stValid [] (by decide)⟩

/-- C6: A transport failure during the device query of `get(digits)`
leaves the digits cache (value and validity flag) unchanged, and a
transport failure during the device write of
`set(measurement.function, F)` leaves the whole state unchanged: no
cascade runs and the cached function is not updated to F. -/
theorem transport_error_preserves_cache (tr : Transport) (s : St) :
    (∀ e s1 ev, get_digits tr s = .error (.transport e, s1, ev) →
      s1.digits = s.digits ∧ s1.v_digits = s.v_digits) ∧
    (∀ F e s1 ev, set_measurement_function tr s F = .error (.transport e, s1, ev) →
      s1 = s) := by
  constructor
  · intro e s1 ev h
    unfold get_digits at h
    split at h
    · split at h
      · rename_i e2 heq
        obtain ⟨e1, s2, ev2⟩ := e2
        have h2 := (fn_error_state tr s e1 s2 ev2 heq).1
        simp only [Except.error.injEq, Prod.mk.injEq] at h
        obtain ⟨-, hs1, -⟩ := h
        subst hs1
        rw [h2]
        exact ⟨rfl, rfl⟩
      · rename_i func s2 ev1 heq
        obtain ⟨hmf, hsim2, hdig, hvdig, hnp, hvnp, hfe, hvfe, hft, hvft,
          hfc2, hvfc, hmc, hvmc, hvr, hvar, hvfun, hfix⟩ :=
          fn_ok_frame tr s func s2 ev1 heq
        split at h
        · exact absurd h (by simp)
        · split at h
          · simp only [Except.error.injEq, Prod.mk.injEq] at h
            obtain ⟨-, hs1, -⟩ := h
            subst hs1
            exact ⟨hdig, hvdig⟩
          · split at h
            · simp at h
            · exact absurd h (by simp)
    · exact absurd h (by simp)
  · intro F e s1 ev h
    unfold set_measurement_function at h
    split at h
    · simp at h
    · split at h
      · exact absurd h (by simp)
      · split at h
        · simp only [Except.error.injEq, Prod.mk.injEq] at h
          obtain ⟨-, hs1, -⟩ := h
          exact hs1.symm
        · exact absurd h (by simp)

/-- Witness for C6: on a transport where every call times out, a stale
digits get fails leaving the state exactly as it was, and a function set
fails without updating the function or cascading. -/
theorem transport_error_preserves_cache_witness :
    get_digits trFail stStaleAll =
      .error (.transport "timeout", stStaleAll, [.askEv ":sense:function?"]) ∧
    (stStaleAll.digits = stStaleAll.digits ∧
      stStaleAll.v_digits = stStaleAll.v_digits) ∧
    set_measurement_function trFail stValid "ac_volts" =
      .error (.transport "timeout", stValid,
              [.writeEv (":sense:function " ++ sq ++ "volt:ac" ++ sq)]) ∧
    stValid = stValid :=
  ⟨by decide,
   (transport_error_preserves_cache trFail stStaleAll).1 "timeout" stStaleAll
     [.askEv ":sense:function?"] (by decide),
   by decide,
   (transport_error_preserves_cache trFail stValid).2 "ac_volts" "timeout" stValid
     [.writeEv (":sense:function " ++ sq ++ "volt:ac" ++ sq)] (by decide)⟩

/-- C7: When a non-simulated stale read of the measurement function or
the filter type receives a device token, the stored result is exactly the
reverse lookup of the quoted, case-folded token over the corresponding
table: an unmapped token raises an index error storing nothing, and a
mapped token is stored under its abstract name and marked valid. -/
theorem reverse_lookup_fails_loudly (tr : Transport) (sFn sFt : St)
    (t tft cmd : String)
    (h1 : sFn.simulate = false) (h2 : sFn.v_function = false)
    (h3 : tr.ask ":sense:function?" = .ok t)
    (h4 : sFt.simulate = false) (h5 : sFt.v_filter_type = false)
    (h6 : sFt.v_function = true)
    (h7 : lookup MeasurementFilterMapping sFt.measurement_function = some cmd)
    (h8 : tr.ask (cmd ++ ":tcon?") = .ok tft) :
    get_measurement_function tr sFn =
      (match revLookup MeasurementFunctionMapping (stripQuotes (toLowerStr t)) with
       | none => .error (.indexError, sFn, [.askEv ":sense:function?"])
       | some k =>
          .ok (k, { sFn with measurement_function := k, v_function := true },
               [.askEv ":sense:function?"])) ∧
    get_filter_type tr sFt =
      (match revLookup FilterTypeMapping (stripQuotes (toLowerStr tft)) with
       | none => .error (.indexError, sFt, [.askEv (cmd ++ ":tcon?")])
       | some k =>
          .ok (k, { sFt with filter_type := k, v_filter_type := true },
               [.askEv (cmd ++ ":tcon?")])) := by
  constructor
  · unfold get_measurement_function
    rw [if_pos ⟨h1, h2⟩, h3]
  · unfold get_filter_type
    rw [if_pos ⟨h4, h5⟩, fn_cached tr sFt h6]
    simp only [h7, h8]
    cases hr : revLookup FilterTypeMapping (stripQuotes (toLowerStr tft)) with
    | none => simp [hr]
    | some k => simp [hr]

/-- Witness for C7: the unmapped token XYZ makes the function read fail
with an index error, while the quoted upper-case token REP is folded,
reverse-looked-up and stored as the repeat filter type. -/
theorem reverse_lookup_fails_loudly_witness :
    get_measurement_function trTok stFnStale =
      .error (.indexError, stFnStale, [.askEv ":sense:function?"]) ∧
    get_filter_type trTok stFtStale =
      .ok ("repeat",
           { stFtStale with filter_type := "repeat", v_filter_type := true },
           [.askEv "volt:dc:aver:tcon?"]) := by
  have h := reverse_lookup_fails_loudly trTok stFnStale stFtStale "XYZ"
    (String.mk [dq] ++ "REP" ++ String.mk [dq]) "volt:dc:aver"
    rfl rfl (by decide) rfl rfl rfl (by decide) (by decide)
  exact ⟨h.1.trans (by decide), h.2.trans (by decide)⟩

/-- C8: Every set of a function-scoped attribute that passes
validation and returns successfully stores the (coerced) value and marks
the attribute valid; in particular, when the active function has no mapped
command for the attribute the device write is skipped and the set still
succeeds with no transport traffic. -/
theorem set_stores_and_marks_valid (tr : Transport) (s : St) :
    (∀ v u s1 ev, set_nplc tr s v = .ok (u, s1, ev) →
      s1.nplc = v ∧ s1.v_nplc = true) ∧
    (∀ v u s1 ev, set_digits tr s v = .ok (u, s1, ev) →
      s1.digits = truncQ v ∧ s1.v_digits = true) ∧
    (∀ V u s1 ev, set_filter_enabled tr s V = .ok (u, s1, ev) →
      s1.filter_enabled = V ∧ s1.v_filter_enabled = true) ∧
    (∀ V u s1 ev, set_filter_type tr s V = .ok (u, s1, ev) →
      s1.filter_type = V ∧ s1.v_filter_type = true) ∧
    (∀ v u s1 ev, set_filter_count tr s v = .ok (u, s1, ev) →
      s1.filter_count = truncQ v ∧ s1.v_filter_count = true) ∧
    (s.simulate = false → s.v_function = true →
      lookup MeasurementNPLCMapping s.measurement_function = none →
      ∀ v : ℚ, ¬(v < Rat.divInt 1 100 ∨ 10 < v) →
        set_nplc tr s v = .ok ((), { s with nplc := v, v_nplc := true }, [])) ∧
    (s.simulate = false → s.v_function = true →
      lookup MeasurementFilterMapping s.measurement_function = none →
      ∀ V w, lookup FilterTypeMapping V = some w →
        set_filter_type tr s V =
          .ok ((), { s with filter_type := V, v_filter_type := true }, [])) := by
  refine ⟨?_, ?_, ?_, ?_, ?_, ?_, ?_⟩
  · intro v u s1 ev h
    unfold set_nplc at h
    split at h
    · exact absurd h (by simp)
    · split at h
      · cases h
        exact ⟨rfl, rfl⟩
      · split at h
        · exact absurd h (by simp)
        · split at h
          · cases h
            exact ⟨rfl, rfl⟩
          · split at h
            · exact absurd h (by simp)
            · cases h
              exact ⟨rfl, rfl⟩
  · intro v u s1 ev h
    unfold set_digits at h
    split at h
    · exact absurd h (by simp)
    · split at h
      · cases h
        exact ⟨rfl, rfl⟩
      · split at h
        · exact absurd h (by simp)
        · split at h
          · cases h
            exact ⟨rfl, rfl⟩
          · split at h
            · exact absurd h (by simp)
            · cases h
              exact ⟨rfl, rfl⟩
  · intro V u s1 ev h
    unfold set_filter_enabled at h
    split at h
    · exact absurd h (by simp)
    · split at h
      · cases h
        exact ⟨rfl, rfl⟩
      · split at h
        · exact absurd h (by simp)
        · split at h
          · cases h
            exact ⟨rfl, rfl⟩
          · split at h
            · exact absurd h (by simp)
            · cases h
              exact ⟨rfl, rfl⟩
  · intro V u s1 ev h
    unfold set_filter_type at h
    split at h
    · exact absurd h (by simp)
    · split at h
      · cases h
        exact ⟨rfl, rfl⟩
      · split at h
        · exact absurd h (by simp)
        · split at h
          · cases h
            exact ⟨rfl, rfl⟩
          · split at h
            · exact absurd h (by simp)
            · cases h
              exact ⟨rfl, rfl⟩
  · intro v u s1 ev h
    unfold set_filter_count at h
    split at h
    · exact absurd h (by simp)
    · split at h
      · cases h
        exact ⟨rfl, rfl⟩
      · split at h
        · exact absurd h (by simp)
        · split at h
          · cases h
            exact ⟨rfl, rfl⟩
          · split at h
            · exact absurd h (by simp)
            · cases h
              exact ⟨rfl, rfl⟩
  · intro hsim hvf hnone v hval
    unfold set_nplc
    rw [if_neg hval, if_neg (by simp [hsim]), fn_cached tr s hvf]
    simp [hnone]
  · intro hsim hvf hnone V w hw
    unfold set_filter_type
    simp only [hw]
    rw [if_neg (by simp [hsim]), fn_cached tr s hvf]
    simp [hnone]

/-- Witness for C8: with the active function frequency (unmapped in the
NPLC and filter tables) and a transport where every call would fail, a set
of nplc and of filter.type both succeed with no transport traffic, store
the value and mark it valid. -/
theorem set_stores_and_marks_valid_witness :
    set_nplc trFail stFreq 5 =
      .ok ((), { stFreq with nplc := 5, v_nplc := true }, []) ∧
    ({ stFreq with nplc := 5, v_nplc := true } : St).nplc = 5 ∧
    ({ stFreq with nplc := 5, v_nplc := true } : St).v_nplc = true ∧
    set_filter_type trFail stFreq "repeat" =
      .ok ((), { stFreq with filter_type := "repeat", v_filter_type := true }, []) ∧
    ({ stFreq with filter_type := "repeat", v_filter_type := true } : St).filter_type = "repeat" ∧
    ({ stFreq with filter_type := "repeat", v_filter_type := true } : St).v_filter_type = true := by
  have H := set_stores_and_marks_valid trFail stFreq
  have h1 := H.2.2.2.2.2.1 rfl rfl (by decide) 5 (by decide)
  have h2 := H.2.2.2.2.2.2 rfl rfl (by decide) "repeat" "rep" (by decide)
  exact ⟨h1, (H.1 5 () _ _ h1).1, (H.1 5 () _ _ h1).2,
    h2, (H.2.2.2.1 "repeat" () _ _ h2).1, (H.2.2.2.1 "repeat" () _ _ h2).2⟩

/-- C9: Set of digits and of filter count coerces with integer
truncation before the range check: a successful set stores the truncated
integer and the next get returns it, the range check is applied to the
truncation, and in simulate mode any value whose truncation is in range is
accepted. -/
theorem set_truncates_before_range_check (tr : Transport) (s : St) :
    (∀ v : ℚ, (truncQ v < 4 ∨ 7 < truncQ v) →
      set_digits tr s v = .error (.valueNotSupported, s, [])) ∧
    (∀ v : ℚ, ∀ u s1 ev, set_digits tr s v = .ok (u, s1, ev) →
      s1.digits = truncQ v ∧ get_digits tr s1 = .ok (truncQ v, s1, [])) ∧
    (s.simulate = true → ∀ v : ℚ, ¬(truncQ v < 4 ∨ 7 < truncQ v) →
      set_digits tr s v =
        .ok ((), { s with digits := truncQ v, v_digits := true }, [])) ∧
    (∀ v : ℚ, (truncQ v < 1 ∨ 100 < truncQ v) →
      set_filter_count tr s v = .error (.valueNotSupported, s, [])) ∧
    (∀ v : ℚ, ∀ u s1 ev, set_filter_count tr s v = .ok (u, s1, ev) →
      s1.filter_count = truncQ v ∧
      get_filter_count tr s1 = .ok (truncQ v, s1, [])) ∧
    (s.simulate = true → ∀ v : ℚ, ¬(truncQ v < 1 ∨ 100 < truncQ v) →
      set_filter_count tr s v =
        .ok ((), { s with filter_count := truncQ v, v_filter_count := true }, [])) := by
  refine ⟨?_, ?_, ?_, ?_, ?_, ?_⟩
  · intro v h
    unfold set_digits
    rw [if_pos h]
  · intro v u s1 ev h
    unfold set_digits at h
    split at h
    · exact absurd h (by simp)
    · split at h
      · cases h
        refine ⟨rfl, ?_⟩
        unfold get_digits
        rw [if_neg (by simp)]
      · split at h
        · exact absurd h (by simp)
        · split at h
          · cases h
            refine ⟨rfl, ?_⟩
            unfold get_digits
            rw [if_neg (by simp)]
          · split at h
            · exact absurd h (by simp)
            · cases h
              refine ⟨rfl, ?_⟩
              unfold get_digits
              rw [if_neg (by simp)]
  · intro hsim v hval
    unfold set_digits
    rw [if_neg hval, if_pos hsim]
  · intro v h
    unfold set_filter_count
    rw [if_pos h]
  · intro v u s1 ev h
    unfold set_filter_count at h
    split at h
    · exact absurd h (by simp)
    · split at h
      · cases h
        refine ⟨rfl, ?_⟩
        unfold get_filter_count
        rw [if_neg (by simp)]
      · split at h
        · exact absurd h (by simp)
        · split at h
          · cases h
            refine ⟨rfl, ?_⟩
            unfold get_filter_count
            rw [if_neg (by simp)]
          · split at h
            · exact absurd h (by simp)
            · cases h
              refine ⟨rfl, ?_⟩
              unfold get_filter_count
              rw [if_neg (by simp)]
  · intro hsim v hval
    unfold set_filter_count
    rw [if_neg hval, if_pos hsim]

/-- Witness for C9: digits 7.9 truncates to 7 and is accepted (and read
back as 7), 3.9 truncates to 3 and is rejected; filter count 100.5
truncates to 100 and is accepted, 0.9 truncates to 0 and is rejected. -/
theorem set_truncates_before_range_check_witness :
    set_digits trOk stSim (Rat.divInt 79 10) =
      .ok ((), { stSim with digits := 7, v_digits := true }, []) ∧
    get_digits trOk { stSim with digits := 7, v_digits := true } =
      .ok (7, { stSim with digits := 7, v_digits := true }, []) ∧
    set_digits trOk stSim (Rat.divInt 39 10) =
      .error (.valueNotSupported, stSim, []) ∧
    set_filter_count trOk stSim (Rat.divInt 201 2) =
      .ok ((), { stSim with filter_count := 100, v_filter_count := true }, []) ∧
    set_filter_count trOk stSim (Rat.divInt 9 10) =
      .error (.valueNotSupported, stSim, []) := by
  have H := set_truncates_before_range_check trOk stSim
  have e1 : truncQ (Rat.divInt 79 10) = 7 := by decide
  have e2 : truncQ (Rat.divInt 201 2) = 100 := by decide
  have h1 := H.2.2.1 rfl (Rat.divInt 79 10) (by decide)
  rw [e1] at h1
  have h2 := (H.2.1 (Rat.divInt 79 10) ()
    { stSim with digits := 7, v_digits := true } [] (by rw [← e1] at h1 ⊢; exact h1)).2
  rw [e1] at h2
  have h3 := H.1 (Rat.divInt 39 10) (by decide)
  have h4 := H.2.2.2.2.2 rfl (Rat.divInt 201 2) (by decide)
  rw [e2] at h4
  have h5 := H.2.2.2.1 (Rat.divInt 9 10) (by decide)
  exact ⟨h1, h2, h3, h4, h5⟩

/-- C10 counterexample: A successful `set(nplc, 1)` with the
measurement-function cache stale refreshes that cache as a side effect:
the cached function value changes from dc volts to frequency and its
validity flag flips from stale to valid, so a non-function set can change
the cache of another attribute. -/
theorem set_nplc_refreshes_function_cache_counterexample :
    set_nplc trFreq stFnStale 1 =
      .ok ((), stNplcAfter, [.askEv ":sense:function?"]) ∧
    stFnStale.v_function = false ∧
    stFnStale.measurement_function = "dc_volts" ∧
    stNplcAfter.v_function = true ∧
    stNplcAfter.measurement_function = "frequency" :=
  ⟨by decide, rfl, rfl, rfl, rfl⟩

/-- C10 amended: A successful set of any non-function attribute (digits,
nplc, measurement.continuous, filter.enabled, filter.type, filter.count)
leaves the cached value and validity flag of every other attribute
unchanged, except that resolving the command may refresh the
measurement-function cache from the device (updating its value and
marking it valid when it was stale); when the function cache was already
valid even it is untouched, a continuous set never touches it at all, and
no set of a non-function attribute ever marks any attribute stale. -/
theorem set_frame_effect (tr : Transport) (s : St) :
    (∀ v u s1 ev, set_digits tr s v = .ok (u, s1, ev) →
      s1.simulate = s.simulate ∧
      s1.nplc = s.nplc ∧ s1.v_nplc = s.v_nplc ∧
      s1.filter_enabled = s.filter_enabled ∧
      s1.v_filter_enabled = s.v_filter_enabled ∧
      s1.filter_type = s.filter_type ∧ s1.v_filter_type = s.v_filter_type ∧
      s1.filter_count = s.filter_count ∧ s1.v_filter_count = s.v_filter_count ∧
      s1.measurement_continuous = s.measurement_continuous ∧
      s1.v_continuous = s.v_continuous ∧
      s1.v_range = s.v_range ∧ s1.v_auto_range = s.v_auto_range ∧
      (s.v_function = true →
        s1.measurement_function = s.measurement_function ∧ s1.v_function = true) ∧
      (s.v_function = false ∨ s1.v_function = true)) ∧
    (∀ v u s1 ev, set_nplc tr s v = .ok (u, s1, ev) →
      s1.simulate = s.simulate ∧
      s1.digits = s.digits ∧ s1.v_digits = s.v_digits ∧
      s1.filter_enabled = s.filter_enabled ∧
      s1.v_filter_enabled = s.v_filter_enabled ∧
      s1.filter_type = s.filter_type ∧ s1.v_filter_type = s.v_filter_type ∧
      s1.filter_count = s.filter_count ∧ s1.v_filter_count = s.v_filter_count ∧
      s1.measurement_continuous = s.measurement_continuous ∧
      s1.v_continuous = s.v_continuous ∧
      s1.v_range = s.v_range ∧ s1.v_auto_range = s.v_auto_range ∧
      (s.v_function = true →
        s1.measurement_function = s.measurement_function ∧ s1.v_function = true) ∧
      (s.v_function = false ∨ s1.v_function = true)) ∧
    (∀ V u s1 ev, set_measurement_continuous tr s V = .ok (u, s1, ev) →
      s1.simulate = s.simulate ∧
      s1.measurement_function = s.measurement_function ∧
      s1.v_function = s.v_function ∧
      s1.digits = s.digits ∧ s1.v_digits = s.v_digits ∧
      s1.nplc = s.nplc ∧ s1.v_nplc = s.v_nplc ∧
      s1.filter_enabled = s.filter_enabled ∧
      s1.v_filter_enabled = s.v_filter_enabled ∧
      s1.filter_type = s.filter_type ∧ s1.v_filter_type = s.v_filter_type ∧
      s1.filter_count = s.filter_count ∧ s1.v_filter_count = s.v_filter_count ∧
      s1.v_range = s.v_range ∧ s1.v_auto_range = s.v_auto_range) ∧
    (∀ V u s1 ev, set_filter_enabled tr s V = .ok (u, s1, ev) →
      s1.simulate = s.simulate ∧
      s1.digits = s.digits ∧ s1.v_digits = s.v_digits ∧
      s1.nplc = s.nplc ∧ s1.v_nplc = s.v_nplc ∧
      s1.filter_type = s.filter_type ∧ s1.v_filter_type = s.v_filter_type ∧
      s1.filter_count = s.filter_count ∧ s1.v_filter_count = s.v_filter_count ∧
      s1.measurement_continuous = s.measurement_continuous ∧
      s1.v_continuous = s.v_continuous ∧
      s1.v_range = s.v_range ∧ s1.v_auto_range = s.v_auto_range ∧
      (s.v_function = true →
        s1.measurement_function = s.measurement_function ∧ s1.v_function = true) ∧
      (s.v_function = false ∨ s1.v_function = true)) ∧
    (∀ V u s1 ev, set_filter_type tr s V = .ok (u, s1, ev) →
      s1.simulate = s.simulate ∧
      s1.digits = s.digits ∧ s1.v_digits = s.v_digits ∧
      s1.nplc = s.nplc ∧ s1.v_nplc = s.v_nplc ∧
      s1.filter_enabled = s.filter_enabled ∧
      s1.v_filter_enabled = s.v_filter_enabled ∧
      s1.filter_count = s.filter_count ∧ s1.v_filter_count = s.v_filter_count ∧
      s1.measurement_continuous = s.measurement_continuous ∧
      s1.v_continuous = s.v_continuous ∧
      s1.v_range = s.v_range ∧ s1.v_auto_range = s.v_auto_range ∧
      (s.v_function = true →
        s1.measurement_function = s.measurement_function ∧ s1.v_function = true) ∧
      (s.v_function = false ∨ s1.v_function = true)) ∧
    (∀ v u s1 ev, set_filter_count tr s v = .ok (u, s1, ev) →
      s1.simulate = s.simulate ∧
      s1.digits = s.digits ∧ s1.v_digits = s.v_digits ∧
      s1.nplc = s.nplc ∧ s1.v_nplc = s.v_nplc ∧
      s1.filter_enabled = s.filter_enabled ∧
      s1.v_filter_enabled = s.v_filter_enabled ∧
      s1.filter_type = s.filter_type ∧ s1.v_filter_type = s.v_filter_type ∧
      s1.measurement_continuous = s.measurement_continuous ∧
      s1.v_continuous = s.v_continuous ∧
      s1.v_range = s.v_range ∧ s1.v_auto_range = s.v_auto_range ∧
      (s.v_function = true →
        s1.measurement_function = s.measurement_function ∧ s1.v_function = true) ∧
      (s.v_function = false ∨ s1.v_function = true)) := by
  refine ⟨?_, ?_, ?_, ?_, ?_, ?_⟩
  · intro v u s1 ev h
    unfold set_digits at h
    split at h
    · exact absurd h (by simp)
    · split at h
      · cases h
        refine ⟨rfl, rfl, rfl, rfl, rfl, rfl, rfl, rfl, rfl, rfl, rfl, rfl, rfl,
          fun hv => ⟨rfl, hv⟩, ?_⟩
        rcases Bool.eq_false_or_eq_true s.v_function with hb | hb
        · exact .inr hb
        · exact .inl hb
      · rename_i hs
        have hsf : s.simulate = false := by
          cases hb : s.simulate
          · rfl
          · exact absurd hb hs
        split at h
        · exact absurd h (by simp)
        · rename_i func s2 ev1 heq
          obtain ⟨hmf, hsim2, hdig, hvdig, hnp, hvnp, hfe, hvfe, hft, hvft,
            hfc2, hvfc, hmc, hvmc, hvr, hvar, hvfun, hfix⟩ :=
            fn_ok_frame tr s func s2 ev1 heq
          have hv2 : s2.v_function = true := hvfun hsf
          split at h
          · simp only [Except.ok.injEq, Prod.mk.injEq] at h
            obtain ⟨-, hs1, -⟩ := h
            subst hs1
            exact ⟨hsim2, hnp, hvnp, hfe, hvfe, hft, hvft, hfc2, hvfc, hmc,
              hvmc, hvr, hvar,
              fun hv => ⟨by rw [(hfix hv).1], by rw [(hfix hv).1]; exact hv⟩,
              .inr hv2⟩
          · split at h
            · exact absurd h (by simp)
            · simp only [Except.ok.injEq, Prod.mk.injEq] at h
              obtain ⟨-, hs1, -⟩ := h
              subst hs1
              exact ⟨hsim2, hnp, hvnp, hfe, hvfe, hft, hvft, hfc2, hvfc, hmc,
                hvmc, hvr, hvar,
                fun hv => ⟨by rw [(hfix hv).1], by rw [(hfix hv).1]; exact hv⟩,
                .inr hv2⟩
  · intro v u s1 ev h
    unfold set_nplc at h
    split at h
    · exact absurd h (by simp)
    · split at h
      · cases h
        refine ⟨rfl, rfl, rfl, rfl, rfl, rfl, rfl, rfl, rfl, rfl, rfl, rfl, rfl,
          fun hv => ⟨rfl, hv⟩, ?_⟩
        rcases Bool.eq_false_or_eq_true s.v_function with hb | hb
        · exact .inr hb
        · exact .inl hb
      · rename_i hs
        have hsf : s.simulate = false := by
          cases hb : s.simulate
          · rfl
          · exact absurd hb hs
        split at h
        · exact absurd h (by simp)
        · rename_i func s2 ev1 heq
          obtain ⟨hmf, hsim2, hdig, hvdig, hnp, hvnp, hfe, hvfe, hft, hvft,
            hfc2, hvfc, hmc, hvmc, hvr, hvar, hvfun, hfix⟩ :=
            fn_ok_frame tr s func s2 ev1 heq
          have hv2 : s2.v_function = true := hvfun hsf
          split at h
          · simp only [Except.ok.injEq, Prod.mk.injEq] at h
            obtain ⟨-, hs1, -⟩ := h
            subst hs1
            exact ⟨hsim2, hdig, hvdig, hfe, hvfe, hft, hvft, hfc2, hvfc, hmc,
              hvmc, hvr, hvar,
              fun hv => ⟨by rw [(hfix hv).1], by rw [(hfix hv).1]; exact hv⟩,
              .inr hv2⟩
          · split at h
            · exact absurd h (by simp)
            · simp only [Except.ok.injEq, Prod.mk.injEq] at h
              obtain ⟨-, hs1, -⟩ := h
              subst hs1
              exact ⟨hsim2, hdig, hvdig, hfe, hvfe, hft, hvft, hfc2, hvfc, hmc,
                hvmc, hvr, hvar,
                fun hv => ⟨by rw [(hfix hv).1], by rw [(hfix hv).1]; exact hv⟩,
                .inr hv2⟩
  · intro V u s1 ev h
    unfold set_measurement_continuous at h
    split at h
    · exact absurd h (by simp)
    · split at h
      · cases h
        exact ⟨rfl, rfl, rfl, rfl, rfl, rfl, rfl, rfl, rfl, rfl, rfl, rfl, rfl,
          rfl, rfl⟩
      · split at h
        · exact absurd h (by simp)
        · cases h
          exact ⟨rfl, rfl, rfl, rfl, rfl, rfl, rfl, rfl, rfl, rfl, rfl, rfl, rfl,
            rfl, rfl⟩
  · intro V u s1 ev h
    unfold set_filter_enabled at h
    split at h
    · exact absurd h (by simp)
    · split at h
      · cases h
        refine ⟨rfl, rfl, rfl, rfl, rfl, rfl, rfl, rfl, rfl, rfl, rfl, rfl, rfl,
          fun hv => ⟨rfl, hv⟩, ?_⟩
        rcases Bool.eq_false_or_eq_true s.v_function with hb | hb
        · exact .inr hb
        · exact .inl hb
      · rename_i hs
        have hsf : s.simulate = false := by
          cases hb : s.simulate
          · rfl
          · exact absurd hb hs
        split at h
        · exact absurd h (by simp)
        · rename_i func s2 ev1 heq
          obtain ⟨hmf, hsim2, hdig, hvdig, hnp, hvnp, hfe, hvfe, hft, hvft,
            hfc2, hvfc, hmc, hvmc, hvr, hvar, hvfun, hfix⟩ :=
            fn_ok_frame tr s func s2 ev1 heq
          have hv2 : s2.v_function = true := hvfun hsf
          split at h
          · simp only [Except.ok.injEq, Prod.mk.injEq] at h
            obtain ⟨-, hs1, -⟩ := h
            subst hs1
            exact ⟨hsim2, hdig, hvdig, hnp, hvnp, hft, hvft, hfc2, hvfc, hmc,
              hvmc, hvr, hvar,
              fun hv => ⟨by rw [(hfix hv).1], by rw [(hfix hv).1]; exact hv⟩,
              .inr hv2⟩
          · split at h
            · exact absurd h (by simp)
            · simp only [Except.ok.injEq, Prod.mk.injEq] at h
              obtain ⟨-, hs1, -⟩ := h
              subst hs1
              exact ⟨hsim2, hdig, hvdig, hnp, hvnp, hft, hvft, hfc2, hvfc, hmc,
                hvmc, hvr, hvar,
                fun hv => ⟨by rw [(hfix hv).1], by rw [(hfix hv).1]; exact hv⟩,
                .inr hv2⟩
  · intro V u s1 ev h
    unfold set_filter_type at h
    split at h
    · exact absurd h (by simp)
    · split at h
      · cases h
        refine ⟨rfl, rfl, rfl, rfl, rfl, rfl, rfl, rfl, rfl, rfl, rfl, rfl, rfl,
          fun hv => ⟨rfl, hv⟩, ?_⟩
        rcases Bool.eq_false_or_eq_true s.v_function with hb | hb
        · exact .inr hb
        · exact .inl hb
      · rename_i hs
        have hsf : s.simulate = false := by
          cases hb : s.simulate
          · rfl
          · exact absurd hb hs
        split at h
        · exact absurd h (by simp)
        · rename_i func s2 ev1 heq
          obtain ⟨hmf, hsim2, hdig, hvdig, hnp, hvnp, hfe, hvfe, hft, hvft,
            hfc2, hvfc, hmc, hvmc, hvr, hvar, hvfun, hfix⟩ :=
            fn_ok_frame tr s func s2 ev1 heq
          have hv2 : s2.v_function = true := hvfun hsf
          split at h
          · simp only [Except.ok.injEq, Prod.mk.injEq] at h
            obtain ⟨-, hs1, -⟩ := h
            subst hs1
            exact ⟨hsim2, hdig, hvdig, hnp, hvnp, hfe, hvfe, hfc2, hvfc, hmc,
              hvmc, hvr, hvar,
              fun hv => ⟨by rw [(hfix hv).1], by rw [(hfix hv).1]; exact hv⟩,
              .inr hv2⟩
          · split at h
            · exact absurd h (by simp)
            · simp only [Except.ok.injEq, Prod.mk.injEq] at h
              obtain ⟨-, hs1, -⟩ := h
              subst hs1
              exact ⟨hsim2, hdig, hvdig, hnp, hvnp, hfe, hvfe, hfc2, hvfc, hmc,
                hvmc, hvr, hvar,
                fun hv => ⟨by rw [(hfix hv).1], by rw [(hfix hv).1]; exact hv⟩,
                .inr hv2⟩
  · intro v u s1 ev h
    unfold set_filter_count at h
    split at h
    · exact absurd h (by simp)
    · split at h
      · cases h
        refine ⟨rfl, rfl, rfl, rfl, rfl, rfl, rfl, rfl, rfl, rfl, rfl, rfl, rfl,
          fun hv => ⟨rfl, hv⟩, ?_⟩
        rcases Bool.eq_false_or_eq_true s.v_function with hb | hb
        · exact .inr hb
        · exact .inl hb
      · rename_i hs
        have hsf : s.simulate = false := by
          cases hb : s.simulate
          · rfl
          · exact absurd hb hs
        split at h
        · exact absurd h (by simp)
        · rename_i func s2 ev1 heq
          obtain ⟨hmf, hsim2, hdig, hvdig, hnp, hvnp, hfe, hvfe, hft, hvft,
            hfc2, hvfc, hmc, hvmc, hvr, hvar, hvfun, hfix⟩ :=
            fn_ok_frame tr s func s2 ev1 heq
          have hv2 : s2.v_function = true := hvfun hsf
          split at h
          · simp only [Except.ok.injEq, Prod.mk.injEq] at h
            obtain ⟨-, hs1, -⟩ := h
            subst hs1
            exact ⟨hsim2, hdig, hvdig, hnp, hvnp, hfe, hvfe, hft, hvft, hmc,
              hvmc, hvr, hvar,
              fun hv => ⟨by rw [(hfix hv).1], by rw [(hfix hv).1]; exact hv⟩,
              .inr hv2⟩
          · split at h
            · exact absurd h (by simp)
            · simp only [Except.ok.injEq, Prod.mk.injEq] at h
              obtain ⟨-, hs1, -⟩ := h
              subst hs1
              exact ⟨hsim2, hdig, hvdig, hnp, hvnp, hfe, hvfe, hft, hvft, hmc,
                hvmc, hvr, hvar,
                fun hv => ⟨by rw [(hfix hv).1], by rw [(hfix hv).1]; exact hv⟩,
                .inr hv2⟩

/-- Witness for the amended C10: a successful simulate-mode
`set(filter.count, 42)` leaves every other attribute of `stSim` untouched,
and a `set(measurement.continuous, on)` leaves the function cache exactly
as it was. -/
theorem set_frame_effect_witness :
    set_filter_count trFail stSim 42 =
      .ok ((), { stSim with filter_count := 42, v_filter_count := true }, []) ∧
    ({ stSim with filter_count := 42, v_filter_count := true } : St).digits =
      stSim.digits ∧
    ({ stSim with filter_count := 42, v_filter_count := true } : St).v_digits =
      stSim.v_digits ∧
    ({ stSim with filter_count := 42, v_filter_count := true } : St).nplc =
      stSim.nplc ∧
    (stSim.v_function = false ∨
      ({ stSim with filter_count := 42, v_filter_count := true } : St).v_function = true) ∧
    set_measurement_continuous trFail stSim "on" =
      .ok ((), { stSim with measurement_continuous := "on", v_continuous := true }, []) ∧
    ({ stSim with measurement_continuous := "on", v_continuous := true } : St).measurement_function =
      stSim.measurement_function ∧
    ({ stSim with measurement_continuous := "on", v_continuous := true } : St).v_function =
      stSim.v_function := by
  have h := (set_frame_effect trFail stSim).2.2.2.2.2 42 ()
    { stSim with filter_count := 42, v_filter_count := true } [] (by decide)
  have h2 := (set_frame_effect trFail stSim).2.2.1 "on" ()
    { stSim with measurement_continuous := "on", v_continuous := true } [] (by decide)
  exact ⟨by decide, h.2.1, h.2.2.1, h.2.2.2.1,
    h.2.2.2.2.2.2.2.2.2.2.2.2.2.2, by decide, h2.2.1, h2.2.2.1⟩

end Keithley2000

